import Mathlib

/-!
Shallow embedding of `jenkins_job_linter/linters.py`: the tri-state lint
result, the root-tag gated `check`, the shared shell-builder iteration, and
the `CheckForEmptyShell` / `CheckShebang` per-step judgments.

Python strings are Lean `String`s manipulated through their `List Char`
data; `Optional[T]` is `Option T`; a Python method that can raise at
runtime is embedded as an `Option`-returning function where `none` marks
the raised exception.
-/

/-- The three names the `LintResult` enum declares, as distinct Lean
constructors.  Note that in Python's `Enum`, `SKIP = True` duplicates the
value of `PASS = True` and therefore denotes the same member (an alias);
that member-identity semantics is modelled separately by `lintResultDecl`
/ `pyEnumMember` below, while this type tracks which declared name each
code path mentions. -/
inductive LintResult where
  | PASS
  | FAIL
  | SKIP
deriving DecidableEq, Repr

/-- The enum member values: `PASS.value = True`, `FAIL.value = False`,
`SKIP.value = True`. -/
def LintResult.value : LintResult → Bool
  | .PASS => true
  | .FAIL => false
  | .SKIP => true

/-- The `LintResult` enum declaration itself: its names and values in
declaration order (`PASS = True`, `FAIL = False`, `SKIP = True`). -/
def lintResultDecl : List (String × Bool) :=
  [("PASS", true), ("FAIL", false), ("SKIP", true)]

/-- Python `Enum` attribute access with aliasing: a declared name whose
value equals an earlier declared value denotes the earlier member, so
`pyEnumMember decl name` is the (name, value) member the attribute
resolves to — for an alias, the first-declared member with that value. -/
def pyEnumMember (decl : List (String × Bool)) (name : String) :
    Option (String × Bool) :=
  match decl.find? (fun p => p.1 = name) with
  | none => none
  | some p => decl.find? (fun q => q.2 = p.2)

/-- The distinct members of a Python `Enum` declaration: the declared
entries that are not aliases of an earlier entry (what iterating the enum
yields). -/
def pyEnumMembers (decl : List (String × Bool)) : List (String × Bool) :=
  decl.filter (fun p => decl.find? (fun q => q.2 = p.2) = some p)

/-- Resolved configuration for `CheckShebang` (the two recognized keys,
as returned by `config.getboolean` and `config[...]`). -/
structure Config where
  allow_default_shebang : Bool
  required_shell_options : String
deriving DecidableEq, Repr

/-- `CheckShebang.default_config`. -/
def defaultConfig : Config := ⟨true, "eux"⟩

/-- An XML element as seen through the ElementTree interface used by the
linters: a tag, optional text content, and child elements in document
order. -/
inductive Element where
  | node (tag : String) (text : Option String) (children : List Element)
deriving Repr

/-- The element's tag. -/
def Element.tag : Element → String
  | .node t _ _ => t

/-- The element's text content (`None` when absent). -/
def Element.text : Element → Option String
  | .node _ tx _ => tx

/-- The element's children in document order. -/
def Element.children : Element → List Element
  | .node _ _ cs => cs

/-- Children of `e` carrying tag `t`, in document order. -/
def childrenWithTag (e : Element) (t : String) : List Element :=
  e.children.filter (fun c => c.tag = t)

/-- `tree.findall('./a/b/c')` for a simple child path: all matches in
document order. -/
def findAllPath (e : Element) : List String → List Element
  | [] => [e]
  | t :: rest => (childrenWithTag e t).flatMap (fun c => findAllPath c rest)

/-- `LintContext`: the parsed tree (its root element) and the resolved
configuration for the current linter. -/
structure LintContext where
  tree : Element
  config : Config

/-- Python `s.startswith(p)` on the underlying character lists. -/
def pyStartsWith (p s : String) : Bool :=
  p.data.isPrefixOf s.data

/-- Characters Python `str.splitlines` treats as line boundaries. -/
def isLineBreak (c : Char) : Bool :=
  c = '\n' || c = '\r' || c = '\x0b' || c = '\x0c' ||
  c = '\x1c' || c = '\x1d' || c = '\x1e' || c = '\x85' ||
  c = '\u2028' || c = '\u2029'

/-- `shell_script.splitlines()[0]`: the first line of the script, `none`
when `splitlines` yields an empty list (the empty string), where the
Python code raises `IndexError`. -/
def firstLine (s : String) : Option String :=
  if s.data.isEmpty then none
  else some ⟨s.data.takeWhile (fun c => ¬ isLineBreak c)⟩

/-- Python `first_line.split(' ')`: split on every single space character,
keeping empty fields. -/
def splitOnSpace : List Char → List (List Char)
  | [] => [[]]
  | c :: rest =>
    if c = ' ' then [] :: splitOnSpace rest
    else
      match splitOnSpace rest with
      | t :: ts => (c :: t) :: ts
      | [] => [[c]]

/-- The character class `[a-z]`. -/
def isLowerAlpha (c : Char) : Bool := 'a' ≤ c && c ≤ 'z'

/-- `re.match(r'-([a-z]+)', tok)`: succeeds when `tok` starts with `-`
followed by at least one lowercase letter, returning group 1 (the maximal
run of lowercase letters after the `-`). -/
def optionFlagMatch : List Char → Option (List Char)
  | '-' :: rest =>
    let g := rest.takeWhile isLowerAlpha
    if g = [] then none else some g
  | _ => none

/-- Whether `[a-z]*sh` matches a prefix of the given characters (with the
backtracking Python `re` performs). -/
def hasLowerSh : List Char → Bool
  | [] => false
  | c :: rest =>
    (decide (c = 's') && decide (rest.head? = some 'h')) ||
    (isLowerAlpha c && hasLowerSh rest)

/-- `re.match(r'#!/bin/[a-z]*sh', first_line) is not None`. -/
def shellShebangMatch (first_line : String) : Bool :=
  pyStartsWith "#!/bin/" first_line && hasLowerSh (first_line.data.drop 7)

/-- Python `r.issubset(g)` on character sets built from character lists:
every character of `r` occurs in `g`. -/
def charSubset (r g : List Char) : Bool :=
  decide (∀ c ∈ r, c ∈ g)

/-- `CheckShebang._check_shell_shebang`: split the shebang line on single
spaces; fail when there is no second field or it does not match the
option-flag pattern; otherwise require the configured option set to be a
subset of the matched letters. -/
def CheckShebang.check_shell_shebang (required_shell_options : List Char)
    (first_line : String) : Bool :=
  match splitOnSpace first_line.data with
  | _ :: p1 :: _ =>
    match optionFlagMatch p1 with
    | none => false
    | some g => charSubset required_shell_options g
  | _ => false

/-- `CheckShebang._handle_jenkins_default`. -/
def CheckShebang.handle_jenkins_default (cfg : Config) :
    LintResult × Option String :=
  if cfg.allow_default_shebang then (LintResult.SKIP, none)
  else (LintResult.FAIL, some "Shebang is Jenkins\x27 default")

/-- `CheckShebang.shell_check`; `none` models the `IndexError` raised by
`splitlines()[0]` on the empty script. -/
def CheckShebang.shell_check (cfg : Config) (shell_script : Option String) :
    Option (LintResult × Option String) :=
  match shell_script with
  | none => some (LintResult.SKIP, none)
  | some script =>
    match firstLine script with
    | none => none
    | some first_line =>
      if ¬ pyStartsWith "#!" first_line then
        some (CheckShebang.handle_jenkins_default cfg)
      else if ¬ shellShebangMatch first_line then
        some (LintResult.SKIP, none)
      else if cfg.required_shell_options.data = [] then
        some (LintResult.PASS, none)
      else if ¬ CheckShebang.check_shell_shebang
          cfg.required_shell_options.data first_line then
        some (LintResult.FAIL, some ("Shebang is " ++ first_line))
      else
        some (LintResult.PASS, none)

/-- `CheckForEmptyShell.shell_check`. -/
def CheckForEmptyShell.shell_check (shell_script : Option String) :
    LintResult × Option String :=
  match shell_script with
  | none => (LintResult.FAIL, none)
  | some _ => (LintResult.PASS, none)

/-- `Linter.check`: compare the document root tag with the linter's
`root_tag`; on mismatch return `(SKIP, None)` without running the linter's
`actual_check`, otherwise return exactly what `actual_check` returns.  The
subclass-supplied `actual_check` is passed explicitly (dynamic dispatch
made explicit); it returns `none` when it raises. -/
def Linter.check (root_tag : String)
    (actual_check : LintContext → Option (LintResult × Option String))
    (ctx : LintContext) : Option (LintResult × Option String) :=
  if ctx.tree.tag ≠ root_tag then some (LintResult.SKIP, none)
  else actual_check ctx

/-- `JobLinter.root_tag`. -/
def JobLinter.root_tag : String := "project"

/-- `ShellBuilderLinter._xpath` as a child-tag path. -/
def ShellBuilderLinter.xpath : List String :=
  ["builders", "hudson.tasks.Shell", "command"]

/-- The `for shell_builder in shell_builders` loop body of
`ShellBuilderLinter.actual_check`: run `shell_check` on each builder's
text, returning the first `FAIL` immediately, `(PASS, None)` when the list
is exhausted, and propagating a raised exception (`none`). -/
def shellStepsFold
    (shell_check : Option String → Option (LintResult × Option String)) :
    List Element → Option (LintResult × Option String)
  | [] => some (LintResult.PASS, none)
  | b :: rest =>
    match shell_check b.text with
    | none => none
    | some (result, text) =>
      if result = LintResult.FAIL then some (result, text)
      else shellStepsFold shell_check rest

/-- `ShellBuilderLinter.actual_check`: find the shell builders; `(SKIP,
None)` when there are none, else iterate them with `shell_check`. -/
def ShellBuilderLinter.actual_check
    (shell_check : Option String → Option (LintResult × Option String))
    (ctx : LintContext) : Option (LintResult × Option String) :=
  let shell_builders := findAllPath ctx.tree ShellBuilderLinter.xpath
  if shell_builders.isEmpty then some (LintResult.SKIP, none)
  else shellStepsFold shell_check shell_builders

/-- `CheckShebang`'s inherited `actual_check`, with `self._ctx.config`
read from the context. -/
def CheckShebang.actual_check (ctx : LintContext) :
    Option (LintResult × Option String) :=
  ShellBuilderLinter.actual_check (CheckShebang.shell_check ctx.config) ctx

/-- `CheckShebang`'s inherited `check` (root-tag gate then
`actual_check`). -/
def CheckShebang.check (ctx : LintContext) :
    Option (LintResult × Option String) :=
  Linter.check JobLinter.root_tag CheckShebang.actual_check ctx

/-- State-passing form of `Linter.check`, for the idempotence claim: each
method is a function of the context that also returns the (possibly
updated) context.  The bodies of `check` and of every `actual_check` in
the source contain no assignment to `self` or to the context, which this
embedding mirrors by threading the context through. -/
def Linter.checkSt
    (root_tag : String)
    (actual_check :
      LintContext → Option (LintResult × Option String) × LintContext)
    (ctx : LintContext) :
    Option (LintResult × Option String) × LintContext :=
  if ctx.tree.tag ≠ root_tag then (some (LintResult.SKIP, none), ctx)
  else actual_check ctx

/-- `CheckShebang.actual_check` in state-passing form: it reads the tree
and configuration and writes nothing. -/
def CheckShebang.actual_checkSt (ctx : LintContext) :
    Option (LintResult × Option String) × LintContext :=
  (CheckShebang.actual_check ctx, ctx)

/-- Modelled from the spec: "the second whitespace-separated token" of a
line — Python `str.split()` with no argument, splitting on runs of
whitespace and discarding empty fields.  Used only to state claim-side
tokenization, for comparison with the source's `split(' ')`. -/
def whitespaceTokens (s : String) : List (List Char) :=
  (s.data.splitOnP (fun c => c = ' ' || c = '\t' || isLineBreak c)).filter
    (fun t => ¬ t.isEmpty)

/-- A concrete document whose root tag is not `project`. -/
def ctxFolder : LintContext := ⟨Element.node "folder" none [], defaultConfig⟩

/-- A shell command element with no text. -/
def cmdNone : Element := Element.node "command" none []

/-- A shell command element with text `x`. -/
def cmdX : Element := Element.node "command" (some "x") []

/-- A job document with two shell build steps, the first empty. -/
def ctxTwoSteps : LintContext :=
  ⟨Element.node "project" none
    [Element.node "builders" none
      [Element.node "hudson.tasks.Shell" none [cmdNone, cmdX]]],
   defaultConfig⟩

/-- A job document with just a root element, for the idempotence check. -/
def ctxJob : LintContext := ⟨Element.node "project" none [], defaultConfig⟩

example : whitespaceTokens "#!/bin/sh  -eux" =
    ["#!/bin/sh".data, "-eux".data] := by decide

example : CheckShebang.shell_check defaultConfig
    (some "#!/bin/bash -eux\necho hi") = some (LintResult.PASS, none) := by
  decide

example : CheckShebang.shell_check defaultConfig
    (some "#!/bin/bash -eu\necho hi") =
    some (LintResult.FAIL, some "Shebang is #!/bin/bash -eu") := by
  decide

example : CheckShebang.shell_check defaultConfig (some "echo hi") =
    some (LintResult.SKIP, none) := by
  decide

example : CheckShebang.shell_check ⟨false, "eux"⟩ (some "echo hi") =
    some (LintResult.FAIL, some "Shebang is Jenkins\x27 default") := by
  decide

example : CheckShebang.shell_check defaultConfig
    (some "#!/usr/bin/env python\nmain()") = some (LintResult.SKIP, none) := by
  decide

example : CheckShebang.shell_check defaultConfig (some "") = none := by
  decide

/-- A line matched by the shell-shebang pattern in particular starts with
the shebang marker `#!`. -/
lemma startsWith_marker_of_shellMatch {L : String}
    (h : shellShebangMatch L = true) : pyStartsWith "#!" L = true := by
  have h1 : pyStartsWith "#!/bin/" L = true :=
    ((Bool.and_eq_true _ _).mp h).1
  unfold pyStartsWith at h1 ⊢
  rw [List.isPrefixOf_iff_prefix] at h1 ⊢
  exact List.IsPrefix.trans (by decide) h1

/-- C3 counterexample: in the `LintResult` enum declaration, `SKIP = True`
duplicates the value of `PASS = True`, so Python enum aliasing resolves
`LintResult.SKIP` to the `PASS` member itself — the enum does not have
three pairwise-distinct members, only two. -/
theorem lintResult_enum_alias_counterexample :
    pyEnumMember lintResultDecl "SKIP" = pyEnumMember lintResultDecl "PASS" ∧
    pyEnumMember lintResultDecl "SKIP" = some ("PASS", true) ∧
    pyEnumMembers lintResultDecl = [("PASS", true), ("FAIL", false)] ∧
    pyEnumMembers lintResultDecl ≠
      [("PASS", true), ("FAIL", false), ("SKIP", true)] := by
  decide

/-- C3 amended: `LintResult` declares the three names `PASS`, `FAIL`,
`SKIP` with values `True`, `False`, `True`; because `SKIP` duplicates
`PASS`'s value it is an alias of the `PASS` member, so the enum has
exactly the two distinct members `PASS` and `FAIL`, and the success-value
projection sends `PASS` to true, `FAIL` to false, and `SKIP` (through its
alias) to true. -/
theorem lintResult_enum_members :
    pyEnumMembers lintResultDecl = [("PASS", true), ("FAIL", false)] ∧
    pyEnumMember lintResultDecl "PASS" = some ("PASS", true) ∧
    pyEnumMember lintResultDecl "FAIL" = some ("FAIL", false) ∧
    pyEnumMember lintResultDecl "SKIP" = some ("PASS", true) ∧
    pyEnumMember lintResultDecl "PASS" ≠ pyEnumMember lintResultDecl "FAIL" ∧
    LintResult.PASS.value = true ∧
    LintResult.SKIP.value = true ∧
    LintResult.FAIL.value = false := by
  decide

/-- C4: when the document root tag differs from the linter's `root_tag`,
`check` returns `(SKIP, None)` and its result does not depend on
`actual_check` at all (it is not invoked); when the tags agree, `check`
returns exactly what `actual_check` returns. -/
theorem linter_check_root_tag_gate
    (root_tag : String) (ctx : LintContext)
    (actual_check : LintContext → Option (LintResult × Option String)) :
    (ctx.tree.tag ≠ root_tag →
      Linter.check root_tag actual_check ctx = some (LintResult.SKIP, none) ∧
      ∀ other_check : LintContext → Option (LintResult × Option String),
        Linter.check root_tag other_check ctx =
          Linter.check root_tag actual_check ctx) ∧
    (ctx.tree.tag = root_tag →
      Linter.check root_tag actual_check ctx = actual_check ctx) := by
  constructor
  · intro h
    constructor
    · simp [Linter.check, h]
    · intro oc
      simp [Linter.check, h]
  · intro h
    simp [Linter.check, h]

theorem linter_check_root_tag_gate_witness :
    Linter.check JobLinter.root_tag CheckShebang.actual_check ctxFolder =
      some (LintResult.SKIP, none) :=
  ((linter_check_root_tag_gate JobLinter.root_tag ctxFolder
      CheckShebang.actual_check).1 (by decide)).1

/-- C5: a present script whose first line does not start with `#!` is
judged by the `allow_default_shebang` switch: `(SKIP, None)` when it is
true, `(FAIL, "Shebang is Jenkins' default")` when it is false. -/
theorem shebang_default_shebang_branch
    (cfg : Config) (s L : String)
    (h1 : firstLine s = some L)
    (h2 : pyStartsWith "#!" L = false) :
    CheckShebang.shell_check cfg (some s) =
      some (if cfg.allow_default_shebang then (LintResult.SKIP, none)
            else (LintResult.FAIL, some "Shebang is Jenkins\x27 default")) := by
  simp [CheckShebang.shell_check, h1, h2, CheckShebang.handle_jenkins_default]

theorem shebang_default_shebang_branch_witness :
    CheckShebang.shell_check ⟨true, "eux"⟩ (some "echo hi\nls") =
      some (if (true : Bool) then (LintResult.SKIP, none)
            else (LintResult.FAIL, some "Shebang is Jenkins\x27 default")) ∧
    CheckShebang.shell_check ⟨false, "eux"⟩ (some "echo hi\nls") =
      some (if (false : Bool) then (LintResult.SKIP, none)
            else (LintResult.FAIL, some "Shebang is Jenkins\x27 default")) :=
  ⟨shebang_default_shebang_branch ⟨true, "eux"⟩ _ "echo hi" (by decide)
      (by decide),
   shebang_default_shebang_branch ⟨false, "eux"⟩ _ "echo hi" (by decide)
      (by decide)⟩

/-- C6: a present script whose first line starts with `#!` but does not
match the shell-interpreter pattern `#!/bin/[a-z]*sh` yields
`(SKIP, None)` for every configuration. -/
theorem shebang_non_shell_skips
    (cfg : Config) (s L : String)
    (h1 : firstLine s = some L)
    (h2 : pyStartsWith "#!" L = true)
    (h3 : shellShebangMatch L = false) :
    CheckShebang.shell_check cfg (some s) = some (LintResult.SKIP, none) := by
  simp [CheckShebang.shell_check, h1, h2, h3]

theorem shebang_non_shell_skips_witness :
    CheckShebang.shell_check ⟨false, "eux"⟩
        (some "#!/usr/bin/env python\nmain()") =
      some (LintResult.SKIP, none) :=
  shebang_non_shell_skips ⟨false, "eux"⟩ _ "#!/usr/bin/env python"
    (by decide) (by decide) (by decide)

/-- C7: once the first line is recognized as a shell shebang, an empty
`required_shell_options` configuration makes the check pass whatever the
rest of the line holds. -/
theorem shebang_empty_required_options_passes
    (cfg : Config) (s L : String)
    (h1 : firstLine s = some L)
    (h2 : shellShebangMatch L = true)
    (h3 : cfg.required_shell_options = "") :
    CheckShebang.shell_check cfg (some s) = some (LintResult.PASS, none) := by
  have hstart := startsWith_marker_of_shellMatch h2
  have hdata : cfg.required_shell_options.data = [] := by rw [h3]
  simp [CheckShebang.shell_check, h1, hstart, h2, hdata]

theorem shebang_empty_required_options_passes_witness :
    CheckShebang.shell_check ⟨true, ""⟩
        (some "#!/bin/bash --whatever 12 &\nls") =
      some (LintResult.PASS, none) :=
  shebang_empty_required_options_passes ⟨true, ""⟩ _
    "#!/bin/bash --whatever 12 &" (by decide) (by decide) rfl

/-- C8 counterexample: on a present but empty script text,
`CheckForEmptyShell.shell_check` returns `(PASS, None)`, not the
`(FAIL, None)` the claim asserts for empty text. -/
theorem empty_shell_empty_string_counterexample :
    CheckForEmptyShell.shell_check (some "") = (LintResult.PASS, none) ∧
    CheckForEmptyShell.shell_check (some "") ≠ (LintResult.FAIL, none) := by
  decide

/-- C8 amended: `CheckForEmptyShell.shell_check` fails exactly when the
text content is absent (`None`); every present text, the empty string
included, yields `(PASS, None)`. -/
theorem empty_shell_fails_iff_absent :
    CheckForEmptyShell.shell_check none = (LintResult.FAIL, none) ∧
    ∀ s : String, CheckForEmptyShell.shell_check (some s) =
      (LintResult.PASS, none) :=
  ⟨rfl, fun _ => rfl⟩

/-- C9 counterexample: on the empty script text the first-line extraction
`splitlines()[0]` indexes out of bounds, so `CheckShebang.shell_check`
raises (embedded as `none`) instead of returning a result pair. -/
theorem shebang_empty_string_counterexample :
    CheckShebang.shell_check defaultConfig (some "") = none ∧
    ¬ ∃ p : LintResult × Option String,
        CheckShebang.shell_check defaultConfig (some "") = some p := by
  refine ⟨by decide, ?_⟩
  rintro ⟨p, hp⟩
  rw [show CheckShebang.shell_check defaultConfig (some "") = none from
    by decide] at hp
  exact Option.noConfusion hp

/-- C9 amended: `CheckShebang.shell_check` returns a result pair on the
absent script and on every non-empty script text; only the empty string
makes the first-line extraction index out of bounds. -/
theorem shebang_shell_check_total_on_nonempty :
    (∀ cfg : Config,
      CheckShebang.shell_check cfg none = some (LintResult.SKIP, none)) ∧
    ∀ (cfg : Config) (s : String), s.data ≠ [] →
      ∃ p, CheckShebang.shell_check cfg (some s) = some p := by
  refine ⟨fun _ => rfl, fun cfg s h => ?_⟩
  have hne : s.data.isEmpty = false := by
    rw [← Bool.not_eq_true, List.isEmpty_iff]
    exact h
  simp only [CheckShebang.shell_check, firstLine, hne, Bool.false_eq_true,
    if_false]
  split
  · exact ⟨_, rfl⟩
  · split
    · exact ⟨_, rfl⟩
    · split
      · exact ⟨_, rfl⟩
      · split
        · exact ⟨_, rfl⟩
        · exact ⟨_, rfl⟩

theorem shebang_shell_check_total_on_nonempty_witness :
    ∃ p, CheckShebang.shell_check defaultConfig (some "x") = some p :=
  shebang_shell_check_total_on_nonempty.2 defaultConfig "x" (by decide)

/-- Folding the steps returns the first failing step's result and never
looks past it: the suffix after the failing step is arbitrary. -/
lemma shellStepsFold_first_fail
    (sc : Option String → Option (LintResult × Option String))
    (b : Element) (p : LintResult × Option String)
    (hb : sc b.text = some p) (hf : p.1 = LintResult.FAIL) :
    ∀ pre : List Element,
      (∀ x ∈ pre, ∃ q, sc x.text = some q ∧ q.1 ≠ LintResult.FAIL) →
      ∀ post : List Element,
        shellStepsFold sc (pre ++ b :: post) = some p := by
  intro pre
  induction pre with
  | nil =>
    intro _ post
    obtain ⟨r, t⟩ := p
    simp only at hf
    simp [shellStepsFold, hb, hf]
  | cons x xs ih =>
    intro hpre post
    obtain ⟨q, hq, hqf⟩ := hpre x (by simp)
    obtain ⟨qr, qt⟩ := q
    simp only [List.cons_append, shellStepsFold, hq]
    rw [if_neg (by simpa using hqf)]
    exact ih (fun y hy => hpre y (by simp [hy])) post

/-- Folding steps none of which fails yields `(PASS, None)`. -/
lemma shellStepsFold_no_fail
    (sc : Option String → Option (LintResult × Option String)) :
    ∀ l : List Element,
      (∀ x ∈ l, ∃ q, sc x.text = some q ∧ q.1 ≠ LintResult.FAIL) →
      shellStepsFold sc l = some (LintResult.PASS, none) := by
  intro l
  induction l with
  | nil => intro _; rfl
  | cons x xs ih =>
    intro h
    obtain ⟨q, hq, hqf⟩ := h x (by simp)
    obtain ⟨qr, qt⟩ := q
    simp only [shellStepsFold, hq]
    rw [if_neg (by simpa using hqf)]
    exact ih (fun y hy => h y (by simp [hy]))

/-- C2: `ShellBuilderLinter.actual_check` returns `(SKIP, None)` on a
document with no shell build steps; otherwise it folds `shell_check` over
the steps in document order, returning the first `FAIL`'s result and
explanation — a result that does not depend on the steps after the first
failing one — and `(PASS, None)` when no step fails (per-step `SKIP`s do
not fail the aggregate). -/
theorem shell_builder_actual_check_aggregation
    (sc : Option String → Option (LintResult × Option String))
    (ctx : LintContext) :
    (findAllPath ctx.tree ShellBuilderLinter.xpath = [] →
      ShellBuilderLinter.actual_check sc ctx =
        some (LintResult.SKIP, none)) ∧
    (∀ (pre : List Element) (b : Element) (post : List Element)
        (p : LintResult × Option String),
      findAllPath ctx.tree ShellBuilderLinter.xpath = pre ++ b :: post →
      (∀ x ∈ pre, ∃ q, sc x.text = some q ∧ q.1 ≠ LintResult.FAIL) →
      sc b.text = some p → p.1 = LintResult.FAIL →
      ShellBuilderLinter.actual_check sc ctx = some p ∧
      ∀ otherPost : List Element,
        shellStepsFold sc (pre ++ b :: otherPost) = some p) ∧
    (findAllPath ctx.tree ShellBuilderLinter.xpath ≠ [] →
      (∀ x ∈ findAllPath ctx.tree ShellBuilderLinter.xpath,
        ∃ q, sc x.text = some q ∧ q.1 ≠ LintResult.FAIL) →
      ShellBuilderLinter.actual_check sc ctx =
        some (LintResult.PASS, none)) := by
  refine ⟨?_, ?_, ?_⟩
  · intro h
    simp [ShellBuilderLinter.actual_check, h]
  · intro pre b post p hsteps hpre hb hf
    constructor
    · simp only [ShellBuilderLinter.actual_check, hsteps]
      rw [if_neg (by simp [List.isEmpty_iff])]
      exact shellStepsFold_first_fail sc b p hb hf pre hpre post
    · exact shellStepsFold_first_fail sc b p hb hf pre hpre
  · intro hne hall
    have hne2 : (findAllPath ctx.tree ShellBuilderLinter.xpath).isEmpty
        = false := by
      rw [← Bool.not_eq_true, List.isEmpty_iff]
      exact hne
    simp only [ShellBuilderLinter.actual_check, hne2, Bool.false_eq_true,
      if_false]
    exact shellStepsFold_no_fail sc _ hall

theorem shell_builder_actual_check_aggregation_witness :
    ShellBuilderLinter.actual_check
        (fun t => some (CheckForEmptyShell.shell_check t)) ctxTwoSteps =
      some (LintResult.FAIL, none) :=
  ((shell_builder_actual_check_aggregation
      (fun t => some (CheckForEmptyShell.shell_check t)) ctxTwoSteps).2.1
    [] cmdNone [cmdX] (LintResult.FAIL, none)
    rfl (by simp) rfl rfl).1

/-- C1 counterexample: on the first line `#!/bin/sh  -eux` (two spaces),
the second whitespace-separated token is the option flag `-eux` whose
letter set contains every default required option, yet `shell_check`
fails, because the source splits on single spaces and inspects the empty
field at index 1. -/
theorem shebang_whitespace_token_counterexample :
    shellShebangMatch "#!/bin/sh  -eux" = true ∧
    whitespaceTokens "#!/bin/sh  -eux" =
      ["#!/bin/sh".data, "-eux".data] ∧
    optionFlagMatch "-eux".data = some "eux".data ∧
    charSubset defaultConfig.required_shell_options.data "eux".data = true ∧
    CheckShebang.shell_check defaultConfig (some "#!/bin/sh  -eux") =
      some (LintResult.FAIL, some "Shebang is #!/bin/sh  -eux") ∧
    CheckShebang.shell_check defaultConfig (some "#!/bin/sh  -eux") ≠
      some (LintResult.PASS, none) := by
  decide

/-- C1 amended: for a non-empty required-options set and a shell-shebang
first line whose field at index 1 under single-space splitting is an
option flag `-` followed by lowercase letters, `shell_check` returns
`(PASS, None)` exactly when every required option occurs among those
letters (order and duplication irrelevant, extras permitted), and
`(FAIL, "Shebang is <line>")` otherwise. -/
theorem shebang_option_subset
    (cfg : Config) (s L : String) (p0 letters : List Char)
    (rest : List (List Char))
    (h1 : firstLine s = some L)
    (h2 : shellShebangMatch L = true)
    (h3 : cfg.required_shell_options.data ≠ [])
    (h4 : splitOnSpace L.data = p0 :: ('-' :: letters) :: rest)
    (h5 : letters ≠ [])
    (h6 : ∀ c ∈ letters, isLowerAlpha c = true) :
    CheckShebang.shell_check cfg (some s) =
      some (if ∀ c ∈ cfg.required_shell_options.data, c ∈ letters
            then (LintResult.PASS, none)
            else (LintResult.FAIL, some ("Shebang is " ++ L))) := by
  have hstart := startsWith_marker_of_shellMatch h2
  have hcheck : CheckShebang.check_shell_shebang
      cfg.required_shell_options.data L =
      charSubset cfg.required_shell_options.data letters := by
    simp only [CheckShebang.check_shell_shebang, h4, optionFlagMatch]
    rw [List.takeWhile_eq_self_iff.mpr h6, if_neg h5]
  simp only [CheckShebang.shell_check, h1]
  rw [if_neg (by simp [hstart]), if_neg (by simp [h2]), if_neg h3, hcheck]
  by_cases hsub : ∀ c ∈ cfg.required_shell_options.data, c ∈ letters
  · have hcs : charSubset cfg.required_shell_options.data letters = true := by
      simp only [charSubset, decide_eq_true_eq]
      exact hsub
    rw [if_neg (by simp [hcs]), if_pos hsub]
  · have hcs : charSubset cfg.required_shell_options.data letters = false := by
      simp only [charSubset, decide_eq_false_iff_not]
      exact hsub
    rw [if_pos (by simp [hcs]), if_neg hsub]

theorem shebang_option_subset_witness :
    CheckShebang.shell_check defaultConfig
        (some "#!/bin/bash -eux\necho hi") =
      some (if ∀ c ∈ "eux".data, c ∈ ['e', 'u', 'x']
            then (LintResult.PASS, none)
            else (LintResult.FAIL,
                  some ("Shebang is " ++ "#!/bin/bash -eux"))) :=
  shebang_option_subset defaultConfig "#!/bin/bash -eux\necho hi"
    "#!/bin/bash -eux" "#!/bin/bash".data ['e', 'u', 'x'] []
    (by decide) (by decide) (by decide) (by decide) (by decide) (by decide)

/-- C10: in the state-passing embedding, `check` leaves the context
unchanged, and running it a second time on the context it returned yields
the same result: no hidden state is mutated between the calls. -/
theorem check_idempotent
    (root_tag : String)
    (actual_check :
      LintContext → Option (LintResult × Option String) × LintContext)
    (ctx : LintContext)
    (h : ∀ c, (actual_check c).2 = c) :
    (Linter.checkSt root_tag actual_check ctx).2 = ctx ∧
    (Linter.checkSt root_tag actual_check
        ((Linter.checkSt root_tag actual_check ctx).2)).1 =
      (Linter.checkSt root_tag actual_check ctx).1 := by
  have h2 : (Linter.checkSt root_tag actual_check ctx).2 = ctx := by
    unfold Linter.checkSt
    split
    · rfl
    · exact h ctx
  exact ⟨h2, by rw [h2]⟩

theorem check_idempotent_witness :
    (Linter.checkSt JobLinter.root_tag CheckShebang.actual_checkSt
        ctxJob).2 = ctxJob ∧
    (Linter.checkSt JobLinter.root_tag CheckShebang.actual_checkSt
        ((Linter.checkSt JobLinter.root_tag CheckShebang.actual_checkSt
            ctxJob).2)).1 =
      (Linter.checkSt JobLinter.root_tag CheckShebang.actual_checkSt
          ctxJob).1 :=
  check_idempotent JobLinter.root_tag CheckShebang.actual_checkSt ctxJob
    (fun _ => rfl)
